import Mathlib

/-!
Shallow embedding of src/main.py and src/schemas.py (GhostForm v2 API):
the run engine around POST /api/run-now, the FiveSurveys placeholder
adapter, the WebSocket connection manager, and the helper functions
around them.  Python floats are modelled as rationals, timestamps are
omitted (no claim below depends on them), and the side effects of the
engine are recorded as an explicit effect trace in program order.
-/

namespace GhostForm

/-- Severity level of a run event (schemas.py, RunEvent.level). -/
inductive Level
  | info
  | warn
  | error
deriving DecidableEq

/-- Run status enumeration (schemas.py, the Run.status literal type). -/
inductive Status
  | INIT
  | LOGIN
  | CHECK_SURVEYS
  | SELECT_SURVEY
  | START_SURVEY
  | IN_SURVEY
  | COMPLETED
  | DISQUALIFIED
  | NO_SURVEYS
  | ERROR
  | FINISHED
deriving DecidableEq

/-- JSON style payload values appearing in event data dictionaries. -/
inductive Val
  | str (s : String)
  | num (q : ℚ)
  | int (n : ℤ)
deriving DecidableEq

/-- One run event record (schemas.py RunEvent, timestamp omitted).  The
WebSocket broadcast message built in emit_and_store carries exactly these
fields again (plus a type tag), so the same record stands for both. -/
structure EventRec where
  tenant_id : String
  run_id : String
  level : Level
  code : String
  message : String
  data : List (String × Val)
deriving DecidableEq

/-- The mutable fields of a run document (schemas.py Run, timestamps
omitted). -/
structure RunRecord where
  tenant_id : String
  account_id : String
  site : String
  status : Status
  payout_total : ℚ
  duration_sec_total : ℤ
  revenue_hour : ℚ
  error : Option String
deriving DecidableEq

/-- A partial update dictionary passed to the run update helper: exactly
the keys that main.py ever puts into such a dictionary. -/
structure RunUpdate where
  status : Option Status := none
  payout_total : Option ℚ := none
  duration_sec_total : Option ℤ := none
  revenue_hour : Option ℚ := none
  error : Option String := none
deriving DecidableEq

/-- Account document fields read by the core (schemas.py Account, the
fields the engine touches). -/
structure AccountDoc where
  tenant_id : String
  site : String
  username : String
deriving DecidableEq

/-- One observable side effect performed by the engine, in program order:
run document creation, run event persistence, a WebSocket broadcast to a
tenant channel, or a run document update. -/
inductive Effect
  | createRun (runId : String) (run : RunRecord)
  | persistEvent (e : EventRec)
  | broadcastEvent (tenant : String) (e : EventRec)
  | updateRun (runId : String) (u : RunUpdate)
deriving DecidableEq

/-- The helper emit_and_store (main.py lines 106 to 117): it persists the
RunEvent first, then broadcasts the same fields to the tenant channel. -/
def emit_and_store (tenant_id run_id : String) (level : Level)
    (code message : String) (data : List (String × Val)) : List Effect :=
  let ev : EventRec :=
    { tenant_id := tenant_id, run_id := run_id, level := level,
      code := code, message := message, data := data }
  [Effect.persistEvent ev, Effect.broadcastEvent tenant_id ev]

/-- Python code.replace with the single character pattern underscore and
replacement space: equal to mapping that swap over the characters. -/
def replaceUnderscores (s : String) : String :=
  ⟨s.data.map (fun ch => if ch = '_' then ' ' else ch)⟩

/-- The emit callback built inside run_now (main.py lines 272 to 273): the
human readable message is the code with underscores replaced by spaces. -/
def emitCb (tenant_id run_id : String) (level : Level) (code : String)
    (data : List (String × Val)) : List Effect :=
  emit_and_store tenant_id run_id level code (replaceUnderscores code) data

/-- Round half to even to the nearest integer, matching the Python round
builtin on a value that is exact in binary floating point. -/
def roundHalfEven (q : ℚ) : ℤ :=
  let n : ℤ := ⌊q⌋
  let frac : ℚ := q - (n : ℚ)
  if frac < 1/2 then n
  else if (1 : ℚ)/2 < frac then n + 1
  else if n % 2 = 0 then n else n + 1

/-- Python round(x, 2). -/
def round2 (q : ℚ) : ℚ := ((roundHalfEven (q * 100) : ℤ) : ℚ) / 100

/-- The fixed payout of the placeholder adapter (0.75). -/
def payoutConst : ℚ := 3/4

/-- The fixed survey duration of the placeholder adapter, in seconds. -/
def durationConst : ℤ := 80

/-- The Python max builtin on two rationals. -/
def pymax (a b : ℚ) : ℚ := if a < b then b else a

/-- revenue_hour as computed by the FiveSurveys adapter (main.py line 90):
payout divided by the epsilon guarded duration in hours, rounded to two
decimals. -/
def revenueHour (payout : ℚ) (durationSec : ℤ) : ℚ :=
  round2 (payout / pymax ((durationSec : ℚ) / 3600) (1/1000000))

/-- The update dictionary written after SURVEY_COMPLETED (main.py lines
86 to 91). -/
def completedUpdate : RunUpdate :=
  { status := some .COMPLETED,
    payout_total := some payoutConst,
    duration_sec_total := some durationConst,
    revenue_hour := some (revenueHour payoutConst durationConst) }

/-- The effect trace of the FiveSurveys adapter run method when no
exception occurs (main.py lines 68 to 94): five emissions, each followed
by the matching run document update.  The timed sleeps separating the
blocks produce no effect. -/
def happyTrace (tenant_id run_id : String) (account : AccountDoc) : List Effect :=
  emitCb tenant_id run_id .info "RUN_STARTED" [("account", .str account.username)]
    ++ [Effect.updateRun run_id { status := some .LOGIN }]
    ++ (emitCb tenant_id run_id .info "LOGIN_OK" [("site", .str "FIVE_SURVEYS")]
    ++ [Effect.updateRun run_id { status := some .CHECK_SURVEYS }])
    ++ (emitCb tenant_id run_id .info "SURVEYS_FOUND" [("count", .int 1)]
    ++ [Effect.updateRun run_id { status := some .IN_SURVEY }])
    ++ (emitCb tenant_id run_id .info "SURVEY_COMPLETED"
          [("payout", .num payoutConst), ("duration_sec", .int durationConst)]
    ++ [Effect.updateRun run_id completedUpdate])
    ++ (emitCb tenant_id run_id .info "RUN_FINISHED" []
    ++ [Effect.updateRun run_id { status := some .FINISHED }])

/-- The except branch of the adapter (main.py lines 95 to 97): emit an
error level RUN_ERROR event carrying the exception text, then set status
ERROR with the error field. -/
def errorHandlerTrace (tenant_id run_id msg : String) : List Effect :=
  emitCb tenant_id run_id .error "RUN_ERROR" [("error", .str msg)]
    ++ [Effect.updateRun run_id { status := some .ERROR, error := some msg }]

/-- The FiveSurveys adapter run method with an optional injected failure:
failAt none is the normal path; failAt (some (k, msg)) models an exception
with text msg raised after the first k effects of the body, caught by the
try and except wrapped around the whole body. -/
def fiveSurveysRun (tenant_id run_id : String) (account : AccountDoc)
    (failAt : Option (ℕ × String)) : List Effect :=
  match failAt with
  | none => happyTrace tenant_id run_id account
  | some (k, msg) =>
      (happyTrace tenant_id run_id account).take k
        ++ errorHandlerTrace tenant_id run_id msg

/-- The adapter implementations defined in main.py. -/
inductive Adapter
  | fiveSurveys
deriving DecidableEq

/-- The fixed adapter registry (main.py lines 99 to 101). -/
def adapters : List (String × Adapter) := [("FIVE_SURVEYS", Adapter.fiveSurveys)]

/-- Dictionary lookup adapters.get(site): none when the site has no
registered adapter. -/
def adaptersGet (site : String) : Option Adapter :=
  (adapters.find? (fun p => p.1 == site)).map Prod.snd

/-- The background task body process (main.py lines 271 to 274): it calls
the run method of the selected adapter through the emit callback.  When
the registry lookup returned none, the attribute access on None raises and
the task dies with an unhandled error after performing no effect.  Returns
the effects performed and the unhandled error, if any. -/
def processTask (adapter : Option Adapter) (tenant_id run_id : String)
    (account : AccountDoc) (failAt : Option (ℕ × String)) :
    List Effect × Option String :=
  match adapter with
  | none => ([], some "AttributeError: NoneType object has no attribute run")
  | some .fiveSurveys => (fiveSurveysRun tenant_id run_id account failAt, none)

/-- Request body of POST /api/run-now (main.py RunNowRequest). -/
structure RunNowRequest where
  tenant_id : String
  account_id : String
deriving DecidableEq

/-- Result of the run_now route: the acknowledgment dictionary or an
HTTPException with status code and detail. -/
inductive RunNowResult
  | ok (run_id : String) (status : String)
  | httpError (code : ℕ) (detail : String)
deriving DecidableEq

/-- Modelled from the spec: the account side of the Run Registry
persistence collaborator (database.py is not under src).  Accounts are
stored under their object id; the account lookup in run_now is a find by
id returning the document or nothing (spec section 6, GetAccount). -/
structure Db where
  accounts : List (String × AccountDoc)
deriving DecidableEq

/-- A bson ObjectId string must be 24 hexadecimal characters; anything
else raises InvalidId, which to_object_id converts to an HTTP 400
(main.py lines 128 to 132). -/
def isValidObjectId (s : String) : Bool :=
  s.length == 24 && s.data.all (fun ch => ch.isDigit || "abcdefABCDEF".data.contains ch)

/-- Everything the run_now route performs: the synchronous effects done
before the response, the spawned background task outcome (absent when the
route raised before create_task), and the HTTP result. -/
structure RunNowOutcome where
  syncEffects : List Effect
  task : Option (List Effect × Option String)
  result : RunNowResult
deriving DecidableEq

/-- The Run document created at the top of run_now (main.py lines 243 to
250): site is the string constant FIVE_SURVEYS, status INIT, and the
numeric fields keep the schema defaults. -/
def runRecordFor (req : RunNowRequest) : RunRecord :=
  { tenant_id := req.tenant_id, account_id := req.account_id,
    site := "FIVE_SURVEYS", status := .INIT,
    payout_total := 0, duration_sec_total := 0, revenue_hour := 0, error := none }

/-- POST /api/run-now (main.py lines 240 to 278).  run_id stands for the
id returned by create_document and failAt is the failure injection
forwarded to the adapter model.  The run document, the RUN_ENQUEUED event
and its broadcast are produced before the account lookup; a failed lookup
raises 404 (400 for a malformed id) only after those effects; on success
the background task is spawned and the acknowledgment returned. -/
def run_now (db : Db) (req : RunNowRequest) (run_id : String)
    (failAt : Option (ℕ × String)) : RunNowOutcome :=
  let enq : EventRec :=
    { tenant_id := req.tenant_id, run_id := run_id, level := .info,
      code := "RUN_ENQUEUED", message := "Run enqueued", data := [] }
  let pre : List Effect :=
    [Effect.createRun run_id (runRecordFor req), Effect.persistEvent enq,
     Effect.broadcastEvent req.tenant_id enq]
  if !isValidObjectId req.account_id then
    { syncEffects := pre, task := none, result := .httpError 400 "Invalid id format" }
  else
    match db.accounts.find? (fun p => p.1 == req.account_id) with
    | none =>
        { syncEffects := pre, task := none,
          result := .httpError 404 "Account not found" }
    | some p =>
        { syncEffects := pre,
          task := some (processTask (adaptersGet "FIVE_SURVEYS")
                          req.tenant_id run_id p.2 failAt),
          result := .ok run_id "processing" }

/-- Apply one update dictionary to a run document (Mongo set semantics on
the keys main.py uses). -/
def applyUpdate (r : RunRecord) (u : RunUpdate) : RunRecord :=
  { r with
    status := u.status.getD r.status,
    payout_total := u.payout_total.getD r.payout_total,
    duration_sec_total := u.duration_sec_total.getD r.duration_sec_total,
    revenue_hour := u.revenue_hour.getD r.revenue_hour,
    error := match u.error with | some e => some e | none => r.error }

/-- Replay one effect onto the run document with the given id; event
persistence and broadcasts do not modify the document. -/
def applyEffect (run_id : String) (r : RunRecord) (e : Effect) : RunRecord :=
  match e with
  | .updateRun rid u => if rid = run_id then applyUpdate r u else r
  | _ => r

/-- Replay a full effect trace onto a run document. -/
def applyTrace (run_id : String) (r : RunRecord) (tr : List Effect) : RunRecord :=
  tr.foldl (applyEffect run_id) r

/-- Collapse adjacent repetitions in a status list. -/
def destutterStatuses : List Status → List Status
  | [] => []
  | [a] => [a]
  | a :: b :: rest =>
      if a = b then destutterStatuses (b :: rest)
      else a :: destutterStatuses (b :: rest)

/-- The successive run statuses a poller can observe along a trace, with
adjacent repetitions collapsed. -/
def statusPath (run_id : String) (r : RunRecord) (tr : List Effect) : List Status :=
  destutterStatuses ((tr.scanl (applyEffect run_id) r).map RunRecord.status)

/-- The codes of the persisted events of a trace, in order. -/
def eventCodes (tr : List Effect) : List String :=
  tr.filterMap (fun e =>
    match e with
    | .persistEvent ev => some ev.code
    | _ => none)

/-- A live WebSocket connection handle. -/
abbrev Conn := ℕ

/-- The active dictionary of the ConnectionManager (main.py line 33): an
insertion ordered mapping from tenant id to its list of websockets. -/
abbrev Active := List (String × List Conn)

/-- Python dict get(tenant_id, []). -/
def getConns : Active → String → List Conn
  | [], _ => []
  | (k, v) :: rest, t => if k = t then v else getConns rest t

/-- Whether the dictionary holds an entry for the tenant. -/
def hasTenant : Active → String → Bool
  | [], _ => false
  | (k, _) :: rest, t => if k = t then true else hasTenant rest t

/-- Replace the connection list stored under an existing tenant key (the
in place mutation of the shared list object in Python). -/
def setConns : Active → String → List Conn → Active
  | [], _, _ => []
  | (k, v) :: rest, t, l =>
      if k = t then (k, l) :: setConns rest t l
      else (k, v) :: setConns rest t l

/-- Python dict pop(tenant_id, None). -/
def popTenant : Active → String → Active
  | [], _ => []
  | (k, v) :: rest, t =>
      if k = t then popTenant rest t else (k, v) :: popTenant rest t

/-- ConnectionManager.connect after the accept (main.py lines 35 to 37):
setdefault append under the tenant key. -/
def connect (a : Active) (t : String) (c : Conn) : Active :=
  if hasTenant a t then setConns a t (getConns a t ++ [c]) else a ++ [(t, [c])]

/-- ConnectionManager.disconnect (main.py lines 39 to 44): remove the
websocket from the tenant list when present, then drop the tenant entry
when its list became empty. -/
def disconnect (a : Active) (t : String) (c : Conn) : Active :=
  let conns := getConns a t
  let conns2 := if c ∈ conns then conns.erase c else conns
  let a2 := setConns a t conns2
  if conns2 = [] then popTenant a2 t else a2

/-- ConnectionManager.broadcast (main.py lines 46 to 52): iterate over a
snapshot of the tenant list; a send that raises disconnects that single
websocket, a send that succeeds delivers the message.  Returns the final
manager state and the list of deliveries made. -/
def broadcast (a : Active) (t : String) (m : String) (fails : Conn → Bool) :
    Active × List (Conn × String) :=
  (getConns a t).foldl
    (fun acc ws =>
      if fails ws then (disconnect acc.1 t ws, acc.2)
      else (acc.1, acc.2 ++ [(ws, m)]))
    (a, [])

/-- Modelled from the spec: the run collection of the Run Registry, keyed
by object id (database.py is not under src; spec section 6, UpdateRun). -/
structure RunsDb where
  runs : List (String × RunRecord)
deriving DecidableEq

/-- Modelled from the spec: collection update_one with a set document on
the run collection.  Building the ObjectId from an invalid run id string
raises before the update, and ioFail injects any other driver exception;
matching zero documents is not an error. -/
def update_one (d : RunsDb) (run_id : String) (u : RunUpdate) (ioFail : Bool) :
    Except String RunsDb :=
  if !isValidObjectId run_id then Except.error "InvalidId"
  else if ioFail then Except.error "PyMongoError"
  else Except.ok
    { runs := d.runs.map (fun p => if p.1 = run_id then (p.1, applyUpdate p.2 u) else p) }

/-- The run update helper (main.py lines 119 to 126): it returns silently
when the database handle is None, and the try and except around the update
swallows every exception of the update call. -/
def update_run (d : Option RunsDb) (run_id : String) (u : RunUpdate)
    (ioFail : Bool) : Option RunsDb :=
  match d with
  | none => none
  | some db =>
      match update_one db run_id u ioFail with
      | .ok db2 => some db2
      | .error _ => some db

/-! Concrete fixtures used by the closed theorems and witnesses below. -/

/-- A valid account of tenant T1 on site FIVE_SURVEYS. -/
def acctA1 : AccountDoc :=
  { tenant_id := "T1", site := "FIVE_SURVEYS", username := "alice" }

/-- The object id of acctA1. -/
def oidA1 : String := "aaaaaaaaaaaaaaaaaaaaaaaa"

/-- A store holding only acctA1. -/
def dbT1 : Db := { accounts := [(oidA1, acctA1)] }

/-- A run request for acctA1 by its owning tenant. -/
def reqT1 : RunNowRequest := { tenant_id := "T1", account_id := oidA1 }

/-- A generated run id. -/
def ridR1 : String := "bbbbbbbbbbbbbbbbbbbbbbbb"

/-- A well formed object id that resolves to no account. -/
def oidMissing : String := "cccccccccccccccccccccccc"

/-- A run request whose account id resolves to nothing. -/
def reqMissing : RunNowRequest := { tenant_id := "T1", account_id := oidMissing }

/-- An account owned by tenant T2. -/
def acctT2 : AccountDoc :=
  { tenant_id := "T2", site := "FIVE_SURVEYS", username := "bob" }

/-- The object id of acctT2. -/
def oidT2 : String := "dddddddddddddddddddddddd"

/-- A store holding only the T2 account. -/
def dbT2 : Db := { accounts := [(oidT2, acctT2)] }

/-- A request by tenant T1 naming the account of tenant T2. -/
def reqCross : RunNowRequest := { tenant_id := "T1", account_id := oidT2 }

/-- An account of tenant T1 stored with a different site identifier. -/
def acctOther : AccountDoc :=
  { tenant_id := "T1", site := "SWAGBUCKS", username := "carol" }

/-- The object id of acctOther. -/
def oidOther : String := "eeeeeeeeeeeeeeeeeeeeeeee"

/-- A store holding only acctOther. -/
def dbOther : Db := { accounts := [(oidOther, acctOther)] }

/-- A run request for acctOther. -/
def reqOther : RunNowRequest := { tenant_id := "T1", account_id := oidOther }

/-- A manager state with one observer for T1 and one for T2. -/
def active0 : Active := [("T1", [1]), ("T2", [2])]

/-- A manager state with three observers for T1. -/
def active1 : Active := [("T1", [1, 2, 3])]

/-- A run store with one run document. -/
def runsDb0 : RunsDb := { runs := [(ridR1, runRecordFor reqT1)] }

/-! Helper lemmas shared by the claim theorems. -/

/-- Replaying an appended trace is replaying both parts in order. -/
theorem applyTrace_append (rid : String) (r : RunRecord) (xs ys : List Effect) :
    applyTrace rid r (xs ++ ys) = applyTrace rid (applyTrace rid r xs) ys :=
  List.foldl_append _ _ _ _

/-- Replaying the except branch of the adapter sets status ERROR and the
error text and touches nothing else. -/
theorem applyTrace_errorHandler (t rid msg : String) (r : RunRecord) :
    applyTrace rid r (errorHandlerTrace t rid msg) =
      { r with status := .ERROR, error := some msg } := by
  simp [applyTrace, errorHandlerTrace, emitCb, emit_and_store, applyEffect, applyUpdate]

/-- Replaying the full happy trace of the adapter yields status FINISHED
with the fixed payout, duration and computed revenue. -/
theorem applyTrace_happy (t rid : String) (acct : AccountDoc) (r : RunRecord) :
    applyTrace rid r (happyTrace t rid acct) =
      { r with status := .FINISHED, payout_total := payoutConst,
               duration_sec_total := durationConst,
               revenue_hour := revenueHour payoutConst durationConst } := by
  simp [applyTrace, happyTrace, emitCb, emit_and_store, applyEffect, applyUpdate,
        completedUpdate]

/-- Any injected adapter failure leaves the run in status ERROR with the
failure text recorded. -/
theorem fiveSurveysRun_fail (t rid msg : String) (acct : AccountDoc) (k : ℕ)
    (r : RunRecord) :
    applyTrace rid r (fiveSurveysRun t rid acct (some (k, msg))) =
      { applyTrace rid r ((happyTrace t rid acct).take k) with
          status := .ERROR, error := some msg } := by
  simp [fiveSurveysRun, applyTrace_append, applyTrace_errorHandler]

/-- The exact numeric value of the adapter revenue computation. -/
theorem revenueHour_value :
    revenueHour payoutConst durationConst = payoutConst / ((durationConst : ℚ) / 3600) := by
  norm_num [revenueHour, round2, roundHalfEven, pymax, payoutConst, durationConst]

/-- The HTTP result of run_now does not depend on the behavior of the
background task. -/
theorem run_now_result_independent (db : Db) (req : RunNowRequest) (rid : String)
    (f1 f2 : Option (ℕ × String)) :
    (run_now db req rid f1).result = (run_now db req rid f2).result := by
  unfold run_now
  cases hv : isValidObjectId req.account_id <;>
    cases hf : db.accounts.find? (fun p => p.1 == req.account_id) <;>
      simp [hv, hf]

/-! Claim theorems. -/

/-- C3: starting a run for a valid FIVE_SURVEYS account returns the run id
with status processing immediately, the background execution emits exactly
RUN_STARTED, LOGIN_OK, SURVEYS_FOUND, SURVEY_COMPLETED and RUN_FINISHED,
the run status passes through INIT, LOGIN, CHECK_SURVEYS, IN_SURVEY,
COMPLETED, FINISHED in that order, and the final record has payout_total
0.75, duration_sec_total 80 and revenue_hour 33.75. -/
theorem C3_happy_path :
    (run_now dbT1 reqT1 ridR1 none).result = .ok ridR1 "processing" ∧
    (run_now dbT1 reqT1 ridR1 none).task = some (happyTrace "T1" ridR1 acctA1, none) ∧
    eventCodes (happyTrace "T1" ridR1 acctA1) =
      ["RUN_STARTED", "LOGIN_OK", "SURVEYS_FOUND", "SURVEY_COMPLETED", "RUN_FINISHED"] ∧
    statusPath ridR1 (runRecordFor reqT1) (happyTrace "T1" ridR1 acctA1) =
      [.INIT, .LOGIN, .CHECK_SURVEYS, .IN_SURVEY, .COMPLETED, .FINISHED] ∧
    (applyTrace ridR1 (runRecordFor reqT1) (happyTrace "T1" ridR1 acctA1)).payout_total
      = 0.75 ∧
    (applyTrace ridR1 (runRecordFor reqT1) (happyTrace "T1" ridR1 acctA1)).duration_sec_total
      = 80 ∧
    (applyTrace ridR1 (runRecordFor reqT1) (happyTrace "T1" ridR1 acctA1)).revenue_hour
      = 33.75 := by
  refine ⟨rfl, rfl, rfl, rfl, ?_, rfl, ?_⟩
  · show payoutConst = (0.75 : ℚ)
    norm_num [payoutConst]
  · show revenueHour payoutConst durationConst = (33.75 : ℚ)
    norm_num [revenueHour, round2, roundHalfEven, pymax, payoutConst, durationConst]

/-- C9: every run the adapter leaves in status FINISHED has revenue_hour
equal to payout_total divided by the duration in hours, and that value is
exactly the epsilon guarded rounded formula of the adapter. -/
theorem C9_revenue (t rid : String) (acct : AccountDoc)
    (failAt : Option (ℕ × String)) (r0 : RunRecord)
    (h : (applyTrace rid r0 (fiveSurveysRun t rid acct failAt)).status = .FINISHED) :
    (applyTrace rid r0 (fiveSurveysRun t rid acct failAt)).revenue_hour =
      (applyTrace rid r0 (fiveSurveysRun t rid acct failAt)).payout_total /
        (((applyTrace rid r0 (fiveSurveysRun t rid acct failAt)).duration_sec_total : ℚ)
          / 3600) ∧
    (applyTrace rid r0 (fiveSurveysRun t rid acct failAt)).revenue_hour =
      revenueHour (applyTrace rid r0 (fiveSurveysRun t rid acct failAt)).payout_total
        (applyTrace rid r0 (fiveSurveysRun t rid acct failAt)).duration_sec_total := by
  cases failAt with
  | none =>
      have e : fiveSurveysRun t rid acct none = happyTrace t rid acct := rfl
      rw [e, applyTrace_happy]
      exact ⟨revenueHour_value, rfl⟩
  | some km =>
      obtain ⟨k, msg⟩ := km
      rw [fiveSurveysRun_fail] at h
      simp at h

/-- C9 witness: the happy path of a concrete run reaches FINISHED and
satisfies both revenue equations there. -/
theorem C9_revenue_witness :
    (applyTrace ridR1 (runRecordFor reqT1)
        (fiveSurveysRun "T1" ridR1 acctA1 none)).status = .FINISHED ∧
    ((applyTrace ridR1 (runRecordFor reqT1)
        (fiveSurveysRun "T1" ridR1 acctA1 none)).revenue_hour =
      (applyTrace ridR1 (runRecordFor reqT1)
        (fiveSurveysRun "T1" ridR1 acctA1 none)).payout_total /
        (((applyTrace ridR1 (runRecordFor reqT1)
            (fiveSurveysRun "T1" ridR1 acctA1 none)).duration_sec_total : ℚ) / 3600) ∧
     (applyTrace ridR1 (runRecordFor reqT1)
        (fiveSurveysRun "T1" ridR1 acctA1 none)).revenue_hour =
      revenueHour
        (applyTrace ridR1 (runRecordFor reqT1)
          (fiveSurveysRun "T1" ridR1 acctA1 none)).payout_total
        (applyTrace ridR1 (runRecordFor reqT1)
          (fiveSurveysRun "T1" ridR1 acctA1 none)).duration_sec_total) :=
  ⟨rfl, C9_revenue "T1" ridR1 acctA1 none (runRecordFor reqT1) rfl⟩

/-- C4: any failure raised inside the adapter body is caught by the
surrounding try and except: the trace still contains the error level
RUN_ERROR emission carrying the failure text, both persisted and
broadcast, the run ends in status ERROR with the error field set, and the
HTTP result of the triggering request is unchanged by the failure. -/
theorem C4_adapter_failure (t rid msg : String) (acct : AccountDoc) (k : ℕ)
    (r0 : RunRecord) (db : Db) (req : RunNowRequest) (rid2 : String) :
    Effect.persistEvent
        { tenant_id := t, run_id := rid, level := .error, code := "RUN_ERROR",
          message := "RUN ERROR", data := [("error", .str msg)] }
      ∈ fiveSurveysRun t rid acct (some (k, msg)) ∧
    Effect.broadcastEvent t
        { tenant_id := t, run_id := rid, level := .error, code := "RUN_ERROR",
          message := "RUN ERROR", data := [("error", .str msg)] }
      ∈ fiveSurveysRun t rid acct (some (k, msg)) ∧
    (applyTrace rid r0 (fiveSurveysRun t rid acct (some (k, msg)))).status = .ERROR ∧
    (applyTrace rid r0 (fiveSurveysRun t rid acct (some (k, msg)))).error = some msg ∧
    (run_now db req rid2 (some (k, msg))).result = (run_now db req rid2 none).result := by
  refine ⟨?_, ?_, ?_, ?_, run_now_result_independent db req rid2 _ _⟩
  · simp [fiveSurveysRun, errorHandlerTrace, emitCb, emit_and_store]
    exact Or.inr rfl
  · simp [fiveSurveysRun, errorHandlerTrace, emitCb, emit_and_store]
    exact Or.inr rfl
  · rw [fiveSurveysRun_fail]
  · rw [fiveSurveysRun_fail]

/-- C1 counterexample: with an account id resolving to nothing the route
does fail with 404, but a run document was already created by then; and an
account owned by a different tenant is accepted without any NotFound,
because the lookup never checks tenant ownership. -/
theorem C1_counterexample :
    ((run_now dbT2 reqMissing ridR1 none).result = .httpError 404 "Account not found" ∧
      Effect.createRun ridR1 (runRecordFor reqMissing)
        ∈ (run_now dbT2 reqMissing ridR1 none).syncEffects) ∧
    (run_now dbT2 reqCross ridR1 none).result = .ok ridR1 "processing" := by
  exact ⟨⟨rfl, List.mem_cons_self _ _⟩, rfl⟩

/-- C1 amended: when the account id does not resolve to any account at all
(tenant ownership is never checked), the route fails with 404 for a well
formed id, but only after the run document with status INIT, the
RUN_ENQUEUED event and its broadcast have been produced; no background
task is spawned. -/
theorem C1_amended (db : Db) (req : RunNowRequest) (rid : String)
    (failAt : Option (ℕ × String))
    (hvalid : isValidObjectId req.account_id = true)
    (hmiss : db.accounts.find? (fun p => p.1 == req.account_id) = none) :
    (run_now db req rid failAt).result = .httpError 404 "Account not found" ∧
    (run_now db req rid failAt).syncEffects =
      [Effect.createRun rid (runRecordFor req),
       Effect.persistEvent
         { tenant_id := req.tenant_id, run_id := rid, level := .info,
           code := "RUN_ENQUEUED", message := "Run enqueued", data := [] },
       Effect.broadcastEvent req.tenant_id
         { tenant_id := req.tenant_id, run_id := rid, level := .info,
           code := "RUN_ENQUEUED", message := "Run enqueued", data := [] }] ∧
    (run_now db req rid failAt).task = none := by
  unfold run_now
  simp [hvalid, hmiss]

/-- C1 amended witness at a concrete store and request. -/
theorem C1_amended_witness :
    (run_now dbT2 reqMissing ridR1 none).result = .httpError 404 "Account not found" ∧
    (run_now dbT2 reqMissing ridR1 none).syncEffects =
      [Effect.createRun ridR1 (runRecordFor reqMissing),
       Effect.persistEvent
         { tenant_id := "T1", run_id := ridR1, level := .info,
           code := "RUN_ENQUEUED", message := "Run enqueued", data := [] },
       Effect.broadcastEvent "T1"
         { tenant_id := "T1", run_id := ridR1, level := .info,
           code := "RUN_ENQUEUED", message := "Run enqueued", data := [] }] ∧
    (run_now dbT2 reqMissing ridR1 none).task = none :=
  C1_amended dbT2 reqMissing ridR1 none rfl rfl

/-- C2 counterexample: the broadcast of the RUN_STARTED event sits at
index 1 of the adapter trace, strictly before the corresponding run state
update to LOGIN at index 2, so an observer receives a broadcast event
whose run state update has not yet been applied. -/
theorem C2_counterexample :
    (happyTrace "T1" ridR1 acctA1).get? 1 =
      some (Effect.broadcastEvent "T1"
        { tenant_id := "T1", run_id := ridR1, level := .info,
          code := "RUN_STARTED", message := "RUN STARTED",
          data := [("account", .str "alice")] }) ∧
    (happyTrace "T1" ridR1 acctA1).get? 2 =
      some (Effect.updateRun ridR1 { status := some .LOGIN }) := by
  exact ⟨rfl, rfl⟩

/-- C2 amended: each of the five emissions performs, in this order, the
persistence of the RunEvent, the broadcast of the same event, and only
then the run state update: the event is always persisted before the state
update is applied, and the broadcast is delivered before, not after, the
corresponding state update. -/
theorem C2_amended (t rid : String) (acct : AccountDoc) (k : ℕ) (hk : k < 5) :
    ∃ ev u, ((happyTrace t rid acct).drop (3 * k)).take 3 =
      [Effect.persistEvent ev, Effect.broadcastEvent t ev, Effect.updateRun rid u] := by
  interval_cases k <;> exact ⟨_, _, rfl⟩

/-- C2 amended witness at the first emission of a concrete trace. -/
theorem C2_amended_witness :
    (0 < 5) ∧
    ∃ ev u, ((happyTrace "T1" ridR1 acctA1).drop (3 * 0)).take 3 =
      [Effect.persistEvent ev, Effect.broadcastEvent "T1" ev, Effect.updateRun ridR1 u] :=
  ⟨by norm_num, C2_amended "T1" ridR1 acctA1 0 (by norm_num)⟩

/-- C5: the created run document always carries site FIVE_SURVEYS and the
dispatched adapter is the FiveSurveys implementation, whatever site
identifier the resolved account document stores. -/
theorem C5_site_constant (db : Db) (req : RunNowRequest) (rid : String)
    (failAt : Option (ℕ × String)) (p : String × AccountDoc)
    (hvalid : isValidObjectId req.account_id = true)
    (hfind : db.accounts.find? (fun q => q.1 == req.account_id) = some p) :
    (run_now db req rid failAt).syncEffects.head? =
      some (Effect.createRun rid (runRecordFor req)) ∧
    (runRecordFor req).site = "FIVE_SURVEYS" ∧
    adaptersGet "FIVE_SURVEYS" = some Adapter.fiveSurveys ∧
    (run_now db req rid failAt).task =
      some (fiveSurveysRun req.tenant_id rid p.2 failAt, none) := by
  unfold run_now
  simp [hvalid, hfind, adaptersGet, adapters, processTask, runRecordFor]

/-- C5 witness: an account stored with a different site identifier still
produces a FIVE_SURVEYS run dispatched to the FiveSurveys adapter. -/
theorem C5_witness :
    acctOther.site = "SWAGBUCKS" ∧
    ((run_now dbOther reqOther ridR1 none).syncEffects.head? =
      some (Effect.createRun ridR1 (runRecordFor reqOther)) ∧
    (runRecordFor reqOther).site = "FIVE_SURVEYS" ∧
    adaptersGet "FIVE_SURVEYS" = some Adapter.fiveSurveys ∧
    (run_now dbOther reqOther ridR1 none).task =
      some (fiveSurveysRun "T1" ridR1 acctOther none, none)) :=
  ⟨rfl, C5_site_constant dbOther reqOther ridR1 none (oidOther, acctOther) rfl rfl⟩

/-- C6 counterexample: were no adapter registered for the run site, the
background task would die with an unhandled error after performing no
effect at all: no transition to ERROR and no descriptive event, contrary
to the claim. -/
theorem C6_counterexample :
    processTask none "T1" ridR1 acctA1 none =
      ([], some "AttributeError: NoneType object has no attribute run") := by
  rfl

/-- C6 amended: the registry lookup key is the constant FIVE_SURVEYS and
that adapter is always registered, so the missing adapter case cannot
arise; in the hypothetical missing case the task performs no effect and
raises an unhandled error instead of moving the run to ERROR, while the
trigger call still returns the processing acknowledgment whenever the
account resolves. -/
theorem C6_amended :
    adaptersGet "FIVE_SURVEYS" = some Adapter.fiveSurveys ∧
    (∀ (t r : String) (acct : AccountDoc) (failAt : Option (ℕ × String)),
      (processTask none t r acct failAt).1 = [] ∧
      (processTask none t r acct failAt).2.isSome = true) ∧
    (∀ (db : Db) (req : RunNowRequest) (rid : String)
        (failAt : Option (ℕ × String)) (p : String × AccountDoc),
      isValidObjectId req.account_id = true →
      db.accounts.find? (fun q => q.1 == req.account_id) = some p →
      (run_now db req rid failAt).result = .ok rid "processing") := by
  refine ⟨rfl, fun t r acct failAt => ⟨rfl, rfl⟩, ?_⟩
  intro db req rid failAt p hvalid hfind
  unfold run_now
  simp [hvalid, hfind]

/-- C6 amended witness: resolving account, successful acknowledgment. -/
theorem C6_amended_witness :
    (run_now dbT1 reqT1 ridR1 none).result = .ok ridR1 "processing" :=
  C6_amended.2.2 dbT1 reqT1 ridR1 none (oidA1, acctA1) rfl rfl

/-! Lemmas about the connection manager. -/

/-- The list stored under a tenant after replacing it. -/
theorem getConns_setConns (a : Active) (t : String) (l : List Conn) :
    getConns (setConns a t l) t = if hasTenant a t = true then l else [] := by
  induction a with
  | nil => simp [setConns, getConns, hasTenant]
  | cons p rest ih =>
      obtain ⟨k, v⟩ := p
      by_cases hk : k = t <;> simp [setConns, getConns, hasTenant, hk, ih]

/-- After popping a tenant its list reads empty. -/
theorem getConns_popTenant (a : Active) (t : String) :
    getConns (popTenant a t) t = [] := by
  induction a with
  | nil => rfl
  | cons p rest ih =>
      obtain ⟨k, v⟩ := p
      by_cases hk : k = t <;> simp [popTenant, getConns, hk, ih]

/-- A tenant absent from the dictionary reads the empty list. -/
theorem getConns_of_hasTenant_false (a : Active) (t : String)
    (h : hasTenant a t = false) : getConns a t = [] := by
  induction a with
  | nil => rfl
  | cons p rest ih =>
      obtain ⟨k, v⟩ := p
      by_cases hk : k = t
      · simp [hasTenant, hk] at h
      · simp [hasTenant, hk] at h
        simp [getConns, hk, ih h]

/-- Disconnecting a websocket erases it from the tenant list, in every
branch of the helper, the tenant pop included. -/
theorem getConns_disconnect (a : Active) (t : String) (c : Conn) :
    getConns (disconnect a t c) t = (getConns a t).erase c := by
  have hif : (if c ∈ getConns a t then (getConns a t).erase c else getConns a t)
      = (getConns a t).erase c := by
    by_cases hc : c ∈ getConns a t
    · simp [hc]
    · simp [hc, List.erase_of_not_mem hc]
  simp only [disconnect]
  rw [hif]
  by_cases he : (getConns a t).erase c = []
  · rw [if_pos he, getConns_popTenant, he]
  · rw [if_neg he, getConns_setConns]
    by_cases hT : hasTenant a t = true
    · rw [if_pos hT]
    · rw [if_neg hT]
      have h0 : getConns a t = [] := getConns_of_hasTenant_false a t (by simpa using hT)
      rw [h0] at he
      simp at he

/-- The final state of broadcast is the fold of disconnects over the
failing websockets of the snapshot. -/
theorem broadcast_state (t m : String) (fails : Conn → Bool) (l : List Conn) :
    ∀ (s : Active) (acc : List (Conn × String)),
    (l.foldl (fun acc2 ws =>
        if fails ws then (disconnect acc2.1 t ws, acc2.2)
        else (acc2.1, acc2.2 ++ [(ws, m)])) (s, acc)).1 =
      l.foldl (fun s2 ws => if fails ws then disconnect s2 t ws else s2) s := by
  induction l with
  | nil => intro s acc; rfl
  | cons x xs ih =>
      intro s acc
      by_cases hx : fails x = true <;> simp [hx, ih]

/-- The deliveries of broadcast are the snapshot filtered by success. -/
theorem broadcast_deliveries_aux (t m : String) (fails : Conn → Bool) (l : List Conn) :
    ∀ (s : Active) (acc : List (Conn × String)),
    (l.foldl (fun acc2 ws =>
        if fails ws then (disconnect acc2.1 t ws, acc2.2)
        else (acc2.1, acc2.2 ++ [(ws, m)])) (s, acc)).2 =
      acc ++ (l.filter (fun ws => !fails ws)).map (fun ws => (ws, m)) := by
  induction l with
  | nil => intro s acc; simp
  | cons x xs ih =>
      intro s acc
      by_cases hx : fails x = true <;> simp [hx, ih]

/-- The deliveries of broadcast, stated on the manager state. -/
theorem broadcast_deliveries (a : Active) (t m : String) (fails : Conn → Bool) :
    (broadcast a t m fails).2 =
      ((getConns a t).filter (fun ws => !fails ws)).map (fun ws => (ws, m)) := by
  simpa using broadcast_deliveries_aux t m fails (getConns a t) a []

/-- Reading the tenant list through a fold of disconnects is a fold of
erases. -/
theorem getConns_disconnectFold (t : String) (fails : Conn → Bool) (l : List Conn) :
    ∀ (s : Active),
    getConns (l.foldl (fun s2 ws => if fails ws then disconnect s2 t ws else s2) s) t =
      l.foldl (fun xs ws => if fails ws then xs.erase ws else xs) (getConns s t) := by
  induction l with
  | nil => intro s; rfl
  | cons x xs ih =>
      intro s
      by_cases hx : fails x = true <;> simp [hx, ih, getConns_disconnect]

/-- A websocket whose sends fail does not survive the erase fold, as long
as its multiplicity in the start list is bounded by the driving list. -/
theorem not_mem_eraseFold (fails : Conn → Bool) (c : Conn) (hc : fails c = true)
    (l : List Conn) :
    ∀ (xs : List Conn), xs.count c ≤ l.count c →
    c ∉ l.foldl (fun ys ws => if fails ws then ys.erase ws else ys) xs := by
  induction l with
  | nil =>
      intro xs h
      simpa using List.count_eq_zero.mp (Nat.le_zero.mp (by simpa using h))
  | cons x xs2 ih =>
      intro ys h
      simp only [List.foldl_cons]
      by_cases hxc : x = c
      · subst hxc
        rw [hc]
        simp only [if_true]
        refine ih (ys.erase x) ?_
        have h1 : (ys.erase x).count x = ys.count x - 1 := List.count_erase_self x ys
        have h2 : ys.count x ≤ xs2.count x + 1 := by
          simpa [List.count_cons_self] using h
        omega
      · have hcx : c ≠ x := fun hcx => hxc hcx.symm
        by_cases hx : fails x = true
        · rw [hx]
          simp only [if_true]
          refine ih (ys.erase x) ?_
          have h1 : (ys.erase x).count c = ys.count c := List.count_erase_of_ne hcx ys
          have h2 : (x :: xs2).count c = xs2.count c := List.count_cons_of_ne hcx xs2
          omega
        · rw [Bool.not_eq_true] at hx
          rw [hx]
          simp only [Bool.false_eq_true, if_false]
          refine ih ys ?_
          have h2 : (x :: xs2).count c = xs2.count c := List.count_cons_of_ne hcx xs2
          omega

/-- C7: a broadcast for one tenant delivers only to the connections
currently subscribed to that tenant: a connection absent from that tenant
list, for example an observer subscribed to a different tenant, receives
nothing, whatever failures occur during delivery. -/
theorem C7_tenant_isolation (a : Active) (t m : String) (fails : Conn → Bool)
    (c : Conn) (hc : c ∉ getConns a t) (m2 : String) :
    (c, m2) ∉ (broadcast a t m fails).2 := by
  rw [broadcast_deliveries]
  intro hmem
  obtain ⟨x, hx, hxe⟩ := List.mem_map.mp hmem
  have hxc : x = c := congrArg Prod.fst hxe
  obtain ⟨hx1, _⟩ := List.mem_filter.mp hx
  exact hc (hxc ▸ hx1)

/-- C7 witness: the observer of tenant T2 receives nothing from a
broadcast to tenant T1. -/
theorem C7_witness :
    (2 ∉ getConns active0 "T1") ∧
    ((2, "run event") ∉ (broadcast active0 "T1" "run event" (fun _ => false)).2) :=
  ⟨by decide, C7_tenant_isolation active0 "T1" "run event" (fun _ => false) 2
    (by decide) "run event"⟩

/-- C8: delivery is attempted to each connection of the snapshot
independently: every connection whose send succeeds receives the message
even when sends to others fail, and every connection whose send fails is
removed from the tenant list by the end of the call; the call itself
always returns. -/
theorem C8_independent_delivery (a : Active) (t m : String) (fails : Conn → Bool)
    (c : Conn) (hc : c ∈ getConns a t) :
    (fails c = false → (c, m) ∈ (broadcast a t m fails).2) ∧
    (fails c = true → c ∉ getConns (broadcast a t m fails).1 t) := by
  constructor
  · intro hok
    rw [broadcast_deliveries]
    refine List.mem_map.mpr ⟨c, List.mem_filter.mpr ⟨hc, ?_⟩, rfl⟩
    simp [hok]
  · intro hfail
    have hstate : getConns (broadcast a t m fails).1 t =
        (getConns a t).foldl (fun xs ws => if fails ws then xs.erase ws else xs)
          (getConns a t) := by
      rw [broadcast, broadcast_state]
      exact getConns_disconnectFold t fails (getConns a t) a
    rw [hstate]
    exact not_mem_eraseFold fails c hfail (getConns a t) (getConns a t) (le_refl _)

/-- C8 witness: with three observers of T1 and the send to observer 2
failing, observers 1 and 3 still receive the event and observer 2 is
unsubscribed. -/
theorem C8_witness :
    (1 ∈ getConns active1 "T1" ∧
      (1, "ev") ∈ (broadcast active1 "T1" "ev" (fun c => c == 2)).2) ∧
    (2 ∈ getConns active1 "T1" ∧
      2 ∉ getConns (broadcast active1 "T1" "ev" (fun c => c == 2)).1 "T1") :=
  ⟨⟨by decide, (C8_independent_delivery active1 "T1" "ev" (fun c => c == 2) 1
      (by decide)).1 rfl⟩,
   ⟨by decide, (C8_independent_delivery active1 "T1" "ev" (fun c => c == 2) 2
      (by decide)).2 rfl⟩⟩

/-- C10: the run update helper is total: with no database handle it
performs no effect at all, and every exception of the underlying update
call, building an ObjectId from an invalid run id included, is swallowed
leaving the store unchanged. -/
theorem C10_update_run_total (d : RunsDb) (run_id : String) (u : RunUpdate)
    (ioFail : Bool) :
    update_run none run_id u ioFail = none ∧
    (isValidObjectId run_id = false →
      update_run (some d) run_id u ioFail = some d) ∧
    (ioFail = true → update_run (some d) run_id u ioFail = some d) := by
  refine ⟨rfl, ?_, ?_⟩
  · intro h
    simp [update_run, update_one, h]
  · intro h
    by_cases hv : isValidObjectId run_id = true <;>
      simp [update_run, update_one, h, hv]

/-- C10 witness: a malformed run id and an injected driver failure both
leave a concrete store untouched. -/
theorem C10_witness :
    isValidObjectId "zz" = false ∧
    update_run (some runsDb0) "zz" {} false = some runsDb0 ∧
    update_run (some runsDb0) ridR1 {} true = some runsDb0 :=
  ⟨by decide, (C10_update_run_total runsDb0 "zz" {} false).2.1 (by decide),
    (C10_update_run_total runsDb0 ridR1 {} true).2.2 rfl⟩

end GhostForm
